import Mathlib

/-!
Verification of the google-oauth-service token broker.

Shallow embedding of the core of the repository:
  * `src/services/encryption.py`  — Fernet-based `EncryptionService`
  * `src/services/oauth_manager.py` — `OAuthManager` (authorization URL,
    code exchange, valid-token read path, internal refresh) and the
    `GOOGLE_SCOPES` registry
  * `src/services/database.py` — the `OAuthToken` row model; the SQLite
    table is modelled as a list of rows, SQLAlchemy's
    `select ... scalar_one_or_none` as a filter on the primary key.

Opaque external collaborators are modelled symbolically:
  * Fernet ciphertexts are opaque strings in Python; here the string
    domain is the inductive `Str`, where `Str.cipher k p` stands for the
    Fernet token produced from plaintext `p` under key `k` (a real Fernet
    token is never the empty string, and decryption under a different key
    raises — both reflected below).
  * `json.dumps({"user_id": u, "service": s})` / `json.loads` for the
    OAuth `state` parameter are modelled by the inductive `OAuthState`:
    `OAuthState.valid u s` is the serialized object, `OAuthState.malformed j`
    any string that does not parse to such an object.
  * The provider (Google token endpoint) is a parameter: the code
    exchange receives `provider : String → Except Unit Creds` and the
    refresh path `rp : Str → Except Unit Str` (refresh-token plaintext to
    new access token), `.error` standing for a raised provider exception.
Python `datetime.utcnow()` is passed in as an explicit `now : Int`
(seconds); Python exceptions become `Except` / explicit error branches.
-/

namespace GoogleOAuth

/-- The string domain, with Fernet ciphertexts represented symbolically:
`raw s` is an ordinary Python string, `cipher k p` the Fernet token for
plaintext `p` under key `k`. -/
inductive Str where
  | raw (s : String)
  | cipher (key : Nat) (inner : Str)
deriving DecidableEq, Repr

/-- Python string falsiness (`if not data:`): only the empty string is
falsy; a Fernet token is never empty. -/
def Str.isEmpty : Str → Bool
  | .raw s => s.isEmpty
  | .cipher _ _ => false

/-- Python `EncryptionService.encrypt` (src/services/encryption.py:30-38):
`if not data: return ""`, otherwise the Fernet ciphertext. -/
def encrypt (key : Nat) (data : Str) : Str :=
  if data.isEmpty then Str.raw "" else Str.cipher key data

/-- Python `EncryptionService.decrypt` (src/services/encryption.py:40-48):
`if not encrypted_data: return ""`; decrypting under the wrong key or a
malformed token raises `RuntimeError` (modelled `.error ()`). -/
def decrypt (key : Nat) (c : Str) : Except Unit Str :=
  if c.isEmpty then .ok (Str.raw "")
  else
    match c with
    | Str.cipher k inner => if k = key then .ok inner else .error ()
    | Str.raw _ => .error ()

/-- Variant of `decrypt` applied to a nullable column (`decrypt(None)` hits the
`if not encrypted_data` branch, since `None` is falsy in Python). -/
def decryptPy (key : Nat) : Option Str → Except Unit Str
  | none => .ok (Str.raw "")
  | some c => decrypt key c

/-- The OAuth `state` parameter: `valid u s` is
`json.dumps({"user_id": u, "service": s})`, `malformed j` any string
that `json.loads` cannot turn into such an object. -/
inductive OAuthState where
  | valid (user_id service : String)
  | malformed (junk : String)
deriving DecidableEq, Repr

/-- Python `json.loads(state)` followed by the `user_id` / `service` key lookups
(src/services/oauth_manager.py:119-121); `none` when that raises. -/
def OAuthState.decode : OAuthState → Option (String × String)
  | .valid u s => some (u, s)
  | .malformed _ => none

/-- Python truthiness for the optional `state` argument of
`get_authorization_url` (`if not state:`): `json.dumps` output is never
empty, so only an empty malformed string is falsy. -/
def OAuthState.truthy : OAuthState → Bool
  | .valid _ _ => true
  | .malformed j => !j.isEmpty

/-- The `GOOGLE_SCOPES` registry (src/services/oauth_manager.py:22-44); `none` models
the `KeyError` / unsupported-service branch. -/
def GOOGLE_SCOPES : String → Option (List String)
  | "gmail" => some
      ["https://www.googleapis.com/auth/gmail.send",
       "https://www.googleapis.com/auth/gmail.readonly",
       "https://www.googleapis.com/auth/gmail.modify"]
  | "drive" => some
      ["https://www.googleapis.com/auth/drive.file",
       "https://www.googleapis.com/auth/drive.readonly"]
  | "calendar" => some
      ["https://www.googleapis.com/auth/calendar",
       "https://www.googleapis.com/auth/calendar.events"]
  | "meet" => some
      ["https://www.googleapis.com/auth/calendar.events",
       "https://www.googleapis.com/auth/meetings.space.created"]
  | "sheets" => some
      ["https://www.googleapis.com/auth/spreadsheets",
       "https://www.googleapis.com/auth/spreadsheets.readonly"]
  | _ => none

/-- The `scopes` column (`Text`, "JSON array as string",
src/services/database.py:34): `ok l` is `json.dumps l`, `junk` a string
`json.loads` rejects. -/
inductive ScopesField where
  | ok (l : List String)
  | junk (s : String)
deriving DecidableEq, Repr

/-- Python `json.loads(oauth_token.scopes)` (src/services/oauth_manager.py:261);
`none` when that raises. -/
def ScopesField.loads : ScopesField → Option (List String)
  | .ok l => some l
  | .junk _ => none

/-- The `OAuthToken` row (src/services/database.py:23-36). `refresh_token`
is nullable; all timestamps are UTC seconds. -/
structure OAuthToken where
  id : String
  user_id : String
  service : String
  access_token : Str
  refresh_token : Option Str
  token_type : String
  expires_at : Int
  scopes : ScopesField
  created_at : Int
  updated_at : Int
deriving DecidableEq, Repr

/-- The `oauth_tokens` table as a list of rows. -/
abbrev Db := List OAuthToken

/-- Query `session.execute(select(OAuthToken).where(OAuthToken.id == token_id))`
followed by `.scalar_one_or_none()`: `none` for no row, the row if
unique, and a raised `MultipleResultsFound` (`.error ()`) otherwise. -/
def scalarOneOrNone (db : Db) (tid : String) : Except Unit (Option OAuthToken) :=
  match db.filter (fun t => t.id == tid) with
  | [] => .ok none
  | [t] => .ok (some t)
  | _ :: _ :: _ => .error ()

/-- SQLAlchemy mutation of the row fetched by primary key, followed by
`session.commit()`: replace the row with key `tid` by its update. -/
def Db.updateById (db : Db) (tid : String) (f : OAuthToken → OAuthToken) : Db :=
  db.map fun t => if t.id == tid then f t else t

/-- The primary-key constraint on `oauth_tokens.id`, which SQLite
enforces: no two rows share an `id`. -/
def UniqueIds (db : Db) : Prop :=
  (db.map (fun t => t.id)).Nodup

instance (db : Db) : Decidable (UniqueIds db) := by
  unfold UniqueIds; infer_instance

/-- The `flow.credentials` object returned by `flow.fetch_token`
(src/services/oauth_manager.py:145-146): access token, optional refresh
token, optional absolute expiry, and the scopes the provider actually
granted (`credentials.scopes`, which the code never reads back). -/
structure Creds where
  token : Str
  refresh_token : Option Str
  expiry : Option Int
  granted_scopes : List String
deriving DecidableEq, Repr

/-- Python truthiness of `credentials.refresh_token` (`None` and `""`
are falsy). -/
def Creds.refreshTruthy (c : Creds) : Bool :=
  match c.refresh_token with
  | some r => !r.isEmpty
  | none => false

/-- The `OAuthManager` configuration (src/services/oauth_manager.py:49-56):
client credentials from the environment plus the process-wide
encryption key. -/
structure Config where
  client_id : String
  client_secret : String
  redirect_uri : String
  key : Nat
deriving DecidableEq, Repr

/-- What `flow.authorization_url(...)` embeds in the produced URL
(src/services/oauth_manager.py:81-100): the requested scopes, the state
parameter, the redirect URI, and the fixed query arguments. -/
structure AuthUrl where
  client_id : String
  redirect_uri : String
  scopes : List String
  state : OAuthState
  access_type : String
  include_granted_scopes : String
  prompt : String
deriving DecidableEq, Repr

/-- Method `OAuthManager.get_authorization_url` (src/services/oauth_manager.py:60-103).
Raises `ValueError` (`.error ()`) for a service outside `GOOGLE_SCOPES`;
when no truthy `state` is supplied, the state is
`json.dumps({"user_id": user_id, "service": service})`. The Python
function takes no database session and performs no storage access. -/
def get_authorization_url (cfg : Config) (user_id service : String)
    (state : Option OAuthState) : Except Unit AuthUrl :=
  match GOOGLE_SCOPES service with
  | none => .error ()
  | some scopes =>
      let st := match state with
        | some s => if s.truthy then s else OAuthState.valid user_id service
        | none => OAuthState.valid user_id service
      .ok { client_id := cfg.client_id
            redirect_uri := cfg.redirect_uri
            scopes := scopes
            state := st
            access_type := "offline"
            include_granted_scopes := "true"
            prompt := "consent" }

/-- The distinct failure causes inside `exchange_code_for_token`'s
`try` block, all of which reach the same
`raise RuntimeError(f"Token exchange failed: {e}")`
(src/services/oauth_manager.py:195-197): a `state` that `json.loads`
rejects (or that lacks the keys), a service outside `GOOGLE_SCOPES`
(`KeyError`), a provider-side rejection of the code in
`flow.fetch_token`, and a `MultipleResultsFound` from the row lookup. -/
inductive ExchangeCause where
  | invalidState
  | unknownService
  | providerError
  | dbError
deriving DecidableEq, Repr

/-- The exception `exchange_code_for_token` raises: always the single
Python class `RuntimeError`, with the original cause only interpolated
into the message string. -/
inductive ExchangeError where
  | runtimeError (cause : ExchangeCause)
deriving DecidableEq, Repr

/-- The Python exception class of an `ExchangeError`: every failure path
executes `raise RuntimeError(f"Token exchange failed: {e}")`. -/
def ExchangeError.pyClass : ExchangeError → String
  | .runtimeError _ => "RuntimeError"

/-- The dict returned by a successful `exchange_code_for_token`
(src/services/oauth_manager.py:187-193). -/
structure TokenInfo where
  user_id : String
  service : String
  scopes : List String
  expires_at : Int
  has_refresh_token : Bool
deriving DecidableEq, Repr

/-- The `expires_at` value as computed at src/services/oauth_manager.py:149:
`utcnow() + timedelta(seconds = expiry.timestamp() - utcnow().timestamp()
if expiry else 3600)`. -/
def computedExpiry (now : Int) (c : Creds) : Int :=
  now + (match c.expiry with
         | some e => e - now
         | none => 3600)

/-- The `refresh_token` column value written by the exchange
(src/services/oauth_manager.py:153):
`encrypt(credentials.refresh_token) if credentials.refresh_token else None`. -/
def storedRefresh (key : Nat) (c : Creds) : Option Str :=
  match c.refresh_token with
  | some r => if r.isEmpty then none else some (encrypt key r)
  | none => none

/-- Method `OAuthManager.exchange_code_for_token`
(src/services/oauth_manager.py:105-197). `provider` models
`flow.fetch_token(code=code)` / `flow.credentials`; `.error` is a raised
provider exception. Every failure inside the `try` is re-raised as
`RuntimeError` before `session.commit()`, so the table is returned
unchanged on every error path; on success the record for
`user_id + "_" + service` is upserted. -/
def exchange_code_for_token (cfg : Config) (now : Int)
    (provider : String → Except Unit Creds) (code : String)
    (state : OAuthState) (db : Db) : Except ExchangeError TokenInfo × Db :=
  match state.decode with
  | none => (.error (.runtimeError .invalidState), db)
  | some (user_id, service) =>
      match GOOGLE_SCOPES service with
      | none => (.error (.runtimeError .unknownService), db)
      | some scopes =>
          match provider code with
          | .error _ => (.error (.runtimeError .providerError), db)
          | .ok creds =>
              let expires_at := computedExpiry now creds
              let encrypted_access_token := encrypt cfg.key creds.token
              let encrypted_refresh_token := storedRefresh cfg.key creds
              let token_id := user_id ++ "_" ++ service
              match scalarOneOrNone db token_id with
              | .error _ => (.error (.runtimeError .dbError), db)
              | .ok existing_token =>
                  let db' := match existing_token with
                    | some _ =>
                        db.updateById token_id fun t =>
                          { t with
                            access_token := encrypted_access_token
                            refresh_token := encrypted_refresh_token
                            expires_at := expires_at
                            scopes := ScopesField.ok scopes
                            updated_at := now }
                    | none =>
                        db ++ [{ id := token_id
                                 user_id := user_id
                                 service := service
                                 access_token := encrypted_access_token
                                 refresh_token := encrypted_refresh_token
                                 token_type := "Bearer"
                                 expires_at := expires_at
                                 scopes := ScopesField.ok scopes
                                 created_at := now
                                 updated_at := now }]
                  (.ok { user_id := user_id
                         service := service
                         scopes := scopes
                         expires_at := expires_at
                         has_refresh_token := creds.refreshTruthy }, db')

/-- Method `OAuthManager._refresh_token` (src/services/oauth_manager.py:247-289).
`rp` models `credentials.refresh(Request())`, mapping the decrypted
refresh-token plaintext to the provider's new access token (`.error`
for a raised provider exception). The whole body is one `try`: any
failure (decryption, `json.loads` of the scopes column, provider)
returns `False` with the table untouched; success overwrites the row's
access-token ciphertext, `expires_at = utcnow() + 3600` and
`updated_at`, commits, and returns `True`. -/
def refreshTokenOp (cfg : Config) (now : Int) (rp : Str → Except Unit Str)
    (oauth_token : OAuthToken) (db : Db) : Bool × Db :=
  match decryptPy cfg.key oauth_token.refresh_token with
  | .error _ => (false, db)
  | .ok refresh_token =>
      match oauth_token.scopes.loads with
      | none => (false, db)
      | some _scopes =>
          match rp refresh_token with
          | .error _ => (false, db)
          | .ok new_token =>
              (true, db.updateById oauth_token.id fun t =>
                { t with
                  access_token := encrypt cfg.key new_token
                  expires_at := now + 3600
                  updated_at := now })

/-- Python truthiness of the nullable `refresh_token` column at
src/services/oauth_manager.py:225 (`if not oauth_token.refresh_token:`):
`None` and the empty string are falsy. -/
def refreshColFalsy : Option Str → Bool
  | none => true
  | some c => c.isEmpty

/-- The tail of `get_valid_token` (src/services/oauth_manager.py:240-245):
decrypt the access-token ciphertext, returning `None` when decryption
raises. -/
def decryptAndReturn (cfg : Config) (tok : OAuthToken) (db : Db) :
    Except Unit (Option Str) × Db :=
  match decrypt cfg.key tok.access_token with
  | .ok plain => (.ok (some plain), db)
  | .error _ => (.ok none, db)

/-- Method `OAuthManager.get_valid_token` (src/services/oauth_manager.py:199-245).
The row lookup is outside any `try`, so a `MultipleResultsFound` there
propagates (`.error ()` — impossible under the primary-key constraint);
everything else is caught: missing row, expired row without a refresh
token, failed or raising refresh, and decryption failure all return
`None`. After a successful refresh, `session.refresh(oauth_token)`
re-reads the row from the committed table. -/
def get_valid_token (cfg : Config) (now : Int) (rp : Str → Except Unit Str)
    (user_id service : String) (db : Db) : Except Unit (Option Str) × Db :=
  let token_id := user_id ++ "_" ++ service
  match scalarOneOrNone db token_id with
  | .error _ => (.error (), db)
  | .ok none => (.ok none, db)
  | .ok (some oauth_token) =>
      if now ≥ oauth_token.expires_at then
        if refreshColFalsy oauth_token.refresh_token then (.ok none, db)
        else
          match refreshTokenOp cfg now rp oauth_token db with
          | (false, db') => (.ok none, db')
          | (true, db') =>
              match db'.find? (fun t => t.id == oauth_token.id) with
              | none => (.ok none, db')
              | some reloaded => decryptAndReturn cfg reloaded db'
      else
        decryptAndReturn cfg oauth_token db

/-- Method `OAuthManager.revoke_token` (src/services/oauth_manager.py:291-317):
delete the row if present, report whether one existed. -/
def revoke_token (user_id service : String) (db : Db) :
    Except Unit Bool × Db :=
  let token_id := user_id ++ "_" ++ service
  match scalarOneOrNone db token_id with
  | .error _ => (.error (), db)
  | .ok none => (.ok false, db)
  | .ok (some _) => (.ok true, db.filter (fun t => t.id != token_id))

/-! Helper lemmas about the keyed table -/

theorem updateById_map_eq {α : Type} (db : Db) (tid : String)
    (f : OAuthToken → OAuthToken) (g : OAuthToken → α)
    (hf : ∀ t, g (f t) = g t) :
    (db.updateById tid f).map g = db.map g := by
  unfold Db.updateById
  rw [List.map_map]
  apply List.map_congr_left
  intro t _
  by_cases h : t.id = tid <;> simp [h, hf]

theorem updateById_id_map (db : Db) (tid : String) (f : OAuthToken → OAuthToken)
    (hf : ∀ t, (f t).id = t.id) :
    (db.updateById tid f).map (fun t => t.id) = db.map (fun t => t.id) :=
  updateById_map_eq db tid f (fun t => t.id) hf

theorem uniqueIds_updateById {db : Db} (tid : String) (f : OAuthToken → OAuthToken)
    (hf : ∀ t, (f t).id = t.id) (h : UniqueIds db) :
    UniqueIds (db.updateById tid f) := by
  unfold UniqueIds
  rw [updateById_id_map db tid f hf]
  exact h

theorem find?_updateById_self {db : Db} {tid : String} (f : OAuthToken → OAuthToken)
    {t : OAuthToken} (hf : ∀ u, (f u).id = u.id)
    (h : db.find? (fun u => u.id == tid) = some t) :
    (db.updateById tid f).find? (fun u => u.id == tid) = some (f t) := by
  have hp := List.find?_some h
  unfold Db.updateById
  rw [List.find?_map]
  have hcong : ((fun u : OAuthToken => u.id == tid) ∘
      (fun u => if u.id == tid then f u else u)) = (fun u => u.id == tid) := by
    funext u
    by_cases hu : u.id = tid <;> simp [hu, hf]
  rw [hcong, h]
  have ht : t.id = tid := beq_iff_eq.mp hp
  simp [ht]

theorem filter_updateById_self (db : Db) (tid : String) (f : OAuthToken → OAuthToken)
    (hf : ∀ u, (f u).id = u.id) :
    (db.updateById tid f).filter (fun u => u.id == tid) =
      (db.filter (fun u => u.id == tid)).map f := by
  unfold Db.updateById
  rw [List.filter_map]
  have hcong : ((fun u : OAuthToken => u.id == tid) ∘
      (fun u => if u.id == tid then f u else u)) = (fun u => u.id == tid) := by
    funext u
    by_cases hu : u.id = tid <;> simp [hu, hf]
  rw [hcong]
  apply List.map_congr_left
  intro u hu
  have h2 : (u.id == tid) = true := (List.mem_filter.mp hu).2
  simp [h2]

theorem filter_eq_nil_of_find?_none {db : Db} {tid : String}
    (h : db.find? (fun u => u.id == tid) = none) :
    db.filter (fun u => u.id == tid) = [] := by
  rw [List.filter_eq_nil_iff]
  exact List.find?_eq_none.mp h

theorem filter_eq_of_find?_some {db : Db} {tid : String} {t : OAuthToken}
    (hu : UniqueIds db) (h : db.find? (fun u => u.id == tid) = some t) :
    db.filter (fun u => u.id == tid) = [t] := by
  induction db with
  | nil => simp at h
  | cons a l ih =>
      have hnodup := hu
      unfold UniqueIds at hnodup
      rw [List.map_cons, List.nodup_cons] at hnodup
      by_cases hpa : (a.id == tid) = true
      · have ht : t = a := by
          simp only [List.find?_cons, hpa] at h
          exact (Option.some.injEq _ _).mp h.symm
        subst ht
        have hl : l.filter (fun u => u.id == tid) = [] := by
          rw [List.filter_eq_nil_iff]
          intro u hul hu'
          apply hnodup.1
          have : u.id = t.id := by
            have h1 : u.id = tid := beq_iff_eq.mp hu'
            have h2 : t.id = tid := beq_iff_eq.mp hpa
            rw [h1, h2]
          exact this ▸ List.mem_map_of_mem (fun x => x.id) hul
        simp [List.filter_cons, hpa, hl]
      · have h' : l.find? (fun u => u.id == tid) = some t := by
          simp only [List.find?_cons, Bool.not_eq_true] at h
          rw [Bool.not_eq_true] at hpa
          simpa [hpa] using h
        have hul : UniqueIds l := by
          unfold UniqueIds
          exact hnodup.2
        simp [List.filter_cons, hpa, ih hul h']

theorem scalarOneOrNone_eq {db : Db} (tid : String) (hu : UniqueIds db) :
    scalarOneOrNone db tid = .ok (db.find? (fun u => u.id == tid)) := by
  unfold scalarOneOrNone
  cases h : db.find? (fun u => u.id == tid) with
  | none => rw [filter_eq_nil_of_find?_none h]
  | some t => rw [filter_eq_of_find?_some hu h]

theorem uniqueIds_append_new {db : Db} {r : OAuthToken}
    (hu : UniqueIds db) (h : db.find? (fun u => u.id == r.id) = none) :
    UniqueIds (db ++ [r]) := by
  unfold UniqueIds at *
  rw [List.map_append, List.nodup_append]
  refine ⟨hu, List.nodup_singleton _, ?_⟩
  intro x hx hx2
  simp only [List.map_cons, List.map_nil, List.mem_singleton] at hx2
  subst hx2
  obtain ⟨t, ht, hid⟩ := List.mem_map.mp hx
  exact (List.find?_eq_none.mp h) t ht (beq_iff_eq.mpr hid)

theorem find?_append_new {db : Db} {r : OAuthToken} {tid : String}
    (h : db.find? (fun u => u.id == tid) = none) (hr : (r.id == tid) = true) :
    (db ++ [r]).find? (fun u => u.id == tid) = some r := by
  rw [List.find?_append, h]
  simp [List.find?_cons, hr]

/-- Evaluation of a successful exchange when no record exists for the
composite key: the insert branch. -/
theorem exchange_ok_insert (cfg : Config) (now : Int)
    (provider : String → Except Unit Creds) (code user_id service : String)
    (scopes : List String) (creds : Creds) (db : Db)
    (hsvc : GOOGLE_SCOPES service = some scopes)
    (hp : provider code = .ok creds)
    (hu : UniqueIds db)
    (hnone : db.find? (fun u => u.id == user_id ++ "_" ++ service) = none) :
    exchange_code_for_token cfg now provider code (.valid user_id service) db =
      (.ok { user_id := user_id, service := service, scopes := scopes,
             expires_at := computedExpiry now creds,
             has_refresh_token := creds.refreshTruthy },
       db ++ [{ id := user_id ++ "_" ++ service
                user_id := user_id
                service := service
                access_token := encrypt cfg.key creds.token
                refresh_token := storedRefresh cfg.key creds
                token_type := "Bearer"
                expires_at := computedExpiry now creds
                scopes := ScopesField.ok scopes
                created_at := now
                updated_at := now }]) := by
  unfold exchange_code_for_token
  simp only [OAuthState.decode, hsvc, hp, scalarOneOrNone_eq _ hu, hnone]

/-- Evaluation of a successful exchange when a record already exists for
the composite key: the update branch. -/
theorem exchange_ok_update (cfg : Config) (now : Int)
    (provider : String → Except Unit Creds) (code user_id service : String)
    (scopes : List String) (creds : Creds) (db : Db) (t : OAuthToken)
    (hsvc : GOOGLE_SCOPES service = some scopes)
    (hp : provider code = .ok creds)
    (hu : UniqueIds db)
    (hsome : db.find? (fun u => u.id == user_id ++ "_" ++ service) = some t) :
    exchange_code_for_token cfg now provider code (.valid user_id service) db =
      (.ok { user_id := user_id, service := service, scopes := scopes,
             expires_at := computedExpiry now creds,
             has_refresh_token := creds.refreshTruthy },
       db.updateById (user_id ++ "_" ++ service) fun u =>
         { u with
           access_token := encrypt cfg.key creds.token
           refresh_token := storedRefresh cfg.key creds
           expires_at := computedExpiry now creds
           scopes := ScopesField.ok scopes
           updated_at := now }) := by
  unfold exchange_code_for_token
  simp only [OAuthState.decode, hsvc, hp, scalarOneOrNone_eq _ hu, hsome]

/-- The encrypt-then-decrypt round trip under one key, shared by the
round-trip claims. -/
theorem decrypt_encrypt (key : Nat) (s : Str) :
    decrypt key (encrypt key s) = .ok s := by
  cases s with
  | raw str =>
      cases h : str.isEmpty with
      | true =>
          have hstr : str = "" := (String.isEmpty_iff str).mp h
          subst hstr
          rfl
      | false => simp [encrypt, decrypt, Str.isEmpty, h]
  | cipher k inner => simp [encrypt, decrypt, Str.isEmpty]

/-- A failed refresh commits nothing: whenever `refreshTokenOp` reports
`false`, the table comes back exactly as it went in. -/
theorem refreshTokenOp_false (cfg : Config) (now : Int) (rp : Str → Except Unit Str)
    (tok : OAuthToken) (db : Db)
    (h : (refreshTokenOp cfg now rp tok db).1 = false) :
    refreshTokenOp cfg now rp tok db = (false, db) := by
  cases hdec : decryptPy cfg.key tok.refresh_token with
  | error e => simp [refreshTokenOp, hdec]
  | ok rt =>
      cases hload : tok.scopes.loads with
      | none => simp [refreshTokenOp, hdec, hload]
      | some l =>
          cases hrp : rp rt with
          | error e => simp [refreshTokenOp, hdec, hload, hrp]
          | ok new_token => simp [refreshTokenOp, hdec, hload, hrp] at h

theorem decryptAndReturn_fst_ok (cfg : Config) (tok : OAuthToken) (db : Db) :
    (decryptAndReturn cfg tok db).1 ≠ .error () := by
  unfold decryptAndReturn
  cases decrypt cfg.key tok.access_token <;> simp

theorem decryptAndReturn_of_error (cfg : Config) (tok : OAuthToken) (db : Db)
    (h : decrypt cfg.key tok.access_token = .error ()) :
    decryptAndReturn cfg tok db = (.ok none, db) := by
  unfold decryptAndReturn
  rw [h]

theorem decryptAndReturn_of_encrypt (cfg : Config) (tok : OAuthToken) (db : Db)
    (s : Str) (h : tok.access_token = encrypt cfg.key s) :
    decryptAndReturn cfg tok db = (.ok (some s), db) := by
  unfold decryptAndReturn
  rw [h, decrypt_encrypt]

/-- Evaluation of `get_valid_token` when no record matches the
composite key. -/
theorem get_valid_token_eq_of_none (cfg : Config) (now : Int)
    (rp : Str → Except Unit Str) (user_id service : String) (db : Db)
    (hu : UniqueIds db)
    (hfind : db.find? (fun u => u.id == user_id ++ "_" ++ service) = none) :
    get_valid_token cfg now rp user_id service db = (.ok none, db) := by
  unfold get_valid_token
  simp only [scalarOneOrNone_eq _ hu, hfind]

/-- Evaluation of `get_valid_token` once the row lookup has found the
record: the remaining expiry/refresh/decrypt logic. -/
theorem get_valid_token_eq_of_some (cfg : Config) (now : Int)
    (rp : Str → Except Unit Str) (user_id service : String) (db : Db)
    (tok : OAuthToken) (hu : UniqueIds db)
    (hfind : db.find? (fun u => u.id == user_id ++ "_" ++ service) = some tok) :
    get_valid_token cfg now rp user_id service db =
      (if now ≥ tok.expires_at then
        if refreshColFalsy tok.refresh_token then (.ok none, db)
        else
          match refreshTokenOp cfg now rp tok db with
          | (false, db') => (.ok none, db')
          | (true, db') =>
              match db'.find? (fun t => t.id == tok.id) with
              | none => (.ok none, db')
              | some reloaded => decryptAndReturn cfg reloaded db'
      else decryptAndReturn cfg tok db) := by
  unfold get_valid_token
  simp only [scalarOneOrNone_eq _ hu, hfind]

/-! The claims -/

/-- C5: for every string `s`, `decrypt (encrypt s) = s` under the same
key; the empty string short-circuits to the empty string on both
`encrypt` and `decrypt` (no cipher applied), and every non-empty string
survives the encrypt-then-decrypt round trip unchanged. -/
theorem C5_encrypt_decrypt_roundtrip (key : Nat) (s : Str) :
    decrypt key (encrypt key s) = .ok s ∧
    encrypt key (Str.raw "") = Str.raw "" ∧
    decrypt key (Str.raw "") = .ok (Str.raw "") :=
  ⟨decrypt_encrypt key s, rfl, rfl⟩

/-- C8: for every `(user_id, service)` with `service` in the scope
registry, `get_authorization_url` embeds exactly the registry's scope
list for that service and (when no state is supplied) a state value
that the exchange's state decoding maps back to the same pair. The
embedded `get_authorization_url` takes no table argument, mirroring
that the Python method has no database session and touches no
storage. -/
theorem C8_authorization_url (cfg : Config) (user_id service : String)
    (scopes : List String) (hsvc : GOOGLE_SCOPES service = some scopes) :
    (get_authorization_url cfg user_id service none).map
        (fun url => (url.scopes, url.state.decode)) =
      .ok (scopes, some (user_id, service)) := by
  unfold get_authorization_url
  simp [hsvc, OAuthState.decode, Except.map]

/-- C8 witness: concrete instance for `("u1", "gmail")`. -/
theorem C8_authorization_url_witness :
    (get_authorization_url ⟨"cid", "sec", "uri", 7⟩ "u1" "gmail" none).map
        (fun url => (url.scopes, url.state.decode)) =
      .ok (["https://www.googleapis.com/auth/gmail.send",
            "https://www.googleapis.com/auth/gmail.readonly",
            "https://www.googleapis.com/auth/gmail.modify"],
           some ("u1", "gmail")) :=
  C8_authorization_url ⟨"cid", "sec", "uri", 7⟩ "u1" "gmail" _ rfl

/-- C9 counterexample: a malformed state and a provider-side failure
both make `exchange_code_for_token` raise the same Python exception
class, `RuntimeError("Token exchange failed: ...")` — the error kind on
malformed state is not distinct from the provider-exchange failure. -/
theorem C9_counterexample :
    (exchange_code_for_token ⟨"cid", "sec", "uri", 7⟩ 0 (fun _ => .error ()) "abc"
        (OAuthState.malformed "notjson") []).1 =
      .error (.runtimeError .invalidState) ∧
    (exchange_code_for_token ⟨"cid", "sec", "uri", 7⟩ 0 (fun _ => .error ()) "abc"
        (OAuthState.valid "u1" "gmail") []).1 =
      .error (.runtimeError .providerError) ∧
    ExchangeError.pyClass (.runtimeError .invalidState) =
      ExchangeError.pyClass (.runtimeError .providerError) :=
  ⟨rfl, rfl, rfl⟩

/-- C9 amended: for every malformed state value,
`exchange_code_for_token` fails by raising
`RuntimeError("Token exchange failed: ...")` — the same exception class
as a provider-exchange failure, distinguishable only by message — and
performs no partial processing: the token table is returned exactly
unchanged. -/
theorem C9_invalid_state (cfg : Config) (now : Int)
    (provider : String → Except Unit Creds) (code : String)
    (state : OAuthState) (db : Db)
    (hmal : state.decode = none) :
    exchange_code_for_token cfg now provider code state db =
      (.error (.runtimeError .invalidState), db) ∧
    ExchangeError.pyClass (.runtimeError .invalidState) = "RuntimeError" := by
  unfold exchange_code_for_token
  rw [hmal]
  exact ⟨rfl, rfl⟩

/-- C9 witness: concrete malformed state, empty table. -/
theorem C9_invalid_state_witness :
    OAuthState.decode (.malformed "notjson") = none ∧
    exchange_code_for_token ⟨"cid", "sec", "uri", 7⟩ 0 (fun _ => .error ()) "abc"
        (OAuthState.malformed "notjson") [] =
      (.error (.runtimeError .invalidState), []) :=
  ⟨rfl, (C9_invalid_state ⟨"cid", "sec", "uri", 7⟩ 0 (fun _ => .error ()) "abc"
      (OAuthState.malformed "notjson") [] rfl).1⟩

/-- C3 counterexample: with a provider response granting a scope set
different from the registry's, the record stored by
`exchange_code_for_token` carries the registry's gmail scope list, not
the granted list. -/
theorem C3_counterexample :
    ((exchange_code_for_token ⟨"cid", "sec", "uri", 7⟩ 0
        (fun _ => .ok { token := Str.raw "T1",
                        refresh_token := some (Str.raw "R1"),
                        expiry := none,
                        granted_scopes := ["https://www.googleapis.com/auth/other"] })
        "abc" (OAuthState.valid "u1" "gmail") []).2.map (fun t => t.scopes)) =
      [ScopesField.ok ["https://www.googleapis.com/auth/gmail.send",
                       "https://www.googleapis.com/auth/gmail.readonly",
                       "https://www.googleapis.com/auth/gmail.modify"]] ∧
    ScopesField.ok ["https://www.googleapis.com/auth/gmail.send",
                    "https://www.googleapis.com/auth/gmail.readonly",
                    "https://www.googleapis.com/auth/gmail.modify"] ≠
      ScopesField.ok ["https://www.googleapis.com/auth/other"] :=
  ⟨rfl, by decide⟩

/-- C3 amended: after every successful exchange the stored record's
`scopes` field is the registry's requested list for the service,
unconditionally — regardless of the scopes the provider actually
granted — and the refresh operation leaves every record's `scopes`
field unchanged. -/
theorem C3_scopes_stored (cfg : Config) (now : Int)
    (provider : String → Except Unit Creds) (code user_id service : String)
    (scopes : List String) (creds : Creds) (db db' : Db) (info : TokenInfo)
    (hsvc : GOOGLE_SCOPES service = some scopes)
    (hp : provider code = .ok creds)
    (hu : UniqueIds db)
    (hex : exchange_code_for_token cfg now provider code
        (.valid user_id service) db = (.ok info, db')) :
    (db'.find? (fun u => u.id == user_id ++ "_" ++ service)).map
        (fun t => t.scopes) = some (ScopesField.ok scopes) ∧
    ∀ (rp : Str → Except Unit Str) (tok : OAuthToken) (db2 : Db),
      ((refreshTokenOp cfg now rp tok db2).2.map fun t => t.scopes) =
        db2.map fun t => t.scopes := by
  constructor
  · cases hfind : db.find? (fun u => u.id == user_id ++ "_" ++ service) with
    | none =>
        rw [exchange_ok_insert cfg now provider code user_id service scopes creds db
          hsvc hp hu hfind] at hex
        have hdb : db' = db ++ [{ id := user_id ++ "_" ++ service
                                  user_id := user_id
                                  service := service
                                  access_token := encrypt cfg.key creds.token
                                  refresh_token := storedRefresh cfg.key creds
                                  token_type := "Bearer"
                                  expires_at := computedExpiry now creds
                                  scopes := ScopesField.ok scopes
                                  created_at := now
                                  updated_at := now }] :=
          (congrArg Prod.snd hex).symm
        rw [hdb, find?_append_new hfind (by simp)]
        rfl
    | some t =>
        rw [exchange_ok_update cfg now provider code user_id service scopes creds db t
          hsvc hp hu hfind] at hex
        have hdb : db' = db.updateById (user_id ++ "_" ++ service) fun u =>
            { u with
              access_token := encrypt cfg.key creds.token
              refresh_token := storedRefresh cfg.key creds
              expires_at := computedExpiry now creds
              scopes := ScopesField.ok scopes
              updated_at := now } :=
          (congrArg Prod.snd hex).symm
        rw [hdb, find?_updateById_self
          (fun u =>
            { u with
              access_token := encrypt cfg.key creds.token
              refresh_token := storedRefresh cfg.key creds
              expires_at := computedExpiry now creds
              scopes := ScopesField.ok scopes
              updated_at := now })
          (fun u => rfl) hfind]
        rfl
  · intro rp tok db2
    cases hdec : decryptPy cfg.key tok.refresh_token with
    | error e => simp [refreshTokenOp, hdec]
    | ok rt =>
        cases hload : tok.scopes.loads with
        | none => simp [refreshTokenOp, hdec, hload]
        | some l =>
            cases hrp : rp rt with
            | error e => simp [refreshTokenOp, hdec, hload, hrp]
            | ok new_token =>
                simp only [refreshTokenOp, hdec, hload, hrp]
                exact updateById_map_eq db2 tok.id _ (fun t => t.scopes) (fun t => rfl)

/-- C3 witness: a concrete successful exchange for `("u1", "drive")` on
an empty table stores exactly the registry's drive scopes. -/
theorem C3_scopes_stored_witness :
    UniqueIds ([] : Db) ∧
    (([{ id := "u1_drive", user_id := "u1", service := "drive",
         access_token := Str.cipher 7 (Str.raw "T1"),
         refresh_token := some (Str.cipher 7 (Str.raw "R1")),
         token_type := "Bearer", expires_at := 3600,
         scopes := ScopesField.ok
           ["https://www.googleapis.com/auth/drive.file",
            "https://www.googleapis.com/auth/drive.readonly"],
         created_at := 0, updated_at := 0 }] : Db).find?
        (fun u => u.id == "u1" ++ "_" ++ "drive")).map (fun t => t.scopes) =
      some (ScopesField.ok
        ["https://www.googleapis.com/auth/drive.file",
         "https://www.googleapis.com/auth/drive.readonly"]) :=
  ⟨by decide,
   (C3_scopes_stored ⟨"cid", "sec", "uri", 7⟩ 0
      (fun _ => .ok { token := Str.raw "T1", refresh_token := some (Str.raw "R1"),
                      expiry := none, granted_scopes := [] })
      "abc" "u1" "drive"
      ["https://www.googleapis.com/auth/drive.file",
       "https://www.googleapis.com/auth/drive.readonly"]
      { token := Str.raw "T1", refresh_token := some (Str.raw "R1"),
        expiry := none, granted_scopes := [] }
      []
      [{ id := "u1_drive", user_id := "u1", service := "drive",
         access_token := Str.cipher 7 (Str.raw "T1"),
         refresh_token := some (Str.cipher 7 (Str.raw "R1")),
         token_type := "Bearer", expires_at := 3600,
         scopes := ScopesField.ok
           ["https://www.googleapis.com/auth/drive.file",
            "https://www.googleapis.com/auth/drive.readonly"],
         created_at := 0, updated_at := 0 }]
      { user_id := "u1", service := "drive",
        scopes := ["https://www.googleapis.com/auth/drive.file",
                   "https://www.googleapis.com/auth/drive.readonly"],
        expires_at := 3600, has_refresh_token := true }
      rfl rfl (by decide) rfl).1⟩

/-- C7: `get_valid_token` on an expired record (`now >= expires_at`)
with no stored refresh token returns `None` and leaves the table
exactly unchanged: the record is neither deleted nor mutated. -/
theorem C7_expired_no_refresh (cfg : Config) (now : Int)
    (rp : Str → Except Unit Str) (user_id service : String)
    (db : Db) (tok : OAuthToken)
    (hu : UniqueIds db)
    (hfind : db.find? (fun u => u.id == user_id ++ "_" ++ service) = some tok)
    (hexp : now ≥ tok.expires_at)
    (hnorf : refreshColFalsy tok.refresh_token = true) :
    get_valid_token cfg now rp user_id service db = (.ok none, db) := by
  rw [get_valid_token_eq_of_some cfg now rp user_id service db tok hu hfind]
  simp [hexp, hnorf]

/-- C7 witness: an expired record with a `NULL` refresh-token column. -/
theorem C7_expired_no_refresh_witness :
    UniqueIds [{ id := "u1_drive", user_id := "u1", service := "drive",
                 access_token := Str.cipher 7 (Str.raw "T1"),
                 refresh_token := none, token_type := "Bearer",
                 expires_at := 10, scopes := ScopesField.ok [],
                 created_at := 0, updated_at := 0 }] ∧
    get_valid_token ⟨"cid", "sec", "uri", 7⟩ 10 (fun _ => .error ()) "u1" "drive"
        [{ id := "u1_drive", user_id := "u1", service := "drive",
           access_token := Str.cipher 7 (Str.raw "T1"),
           refresh_token := none, token_type := "Bearer",
           expires_at := 10, scopes := ScopesField.ok [],
           created_at := 0, updated_at := 0 }] =
      (.ok none,
       [{ id := "u1_drive", user_id := "u1", service := "drive",
          access_token := Str.cipher 7 (Str.raw "T1"),
          refresh_token := none, token_type := "Bearer",
          expires_at := 10, scopes := ScopesField.ok [],
          created_at := 0, updated_at := 0 }]) :=
  ⟨by decide,
   C7_expired_no_refresh ⟨"cid", "sec", "uri", 7⟩ 10 (fun _ => .error ()) "u1" "drive"
     [{ id := "u1_drive", user_id := "u1", service := "drive",
        access_token := Str.cipher 7 (Str.raw "T1"),
        refresh_token := none, token_type := "Bearer",
        expires_at := 10, scopes := ScopesField.ok [],
        created_at := 0, updated_at := 0 }]
     { id := "u1_drive", user_id := "u1", service := "drive",
       access_token := Str.cipher 7 (Str.raw "T1"),
       refresh_token := none, token_type := "Bearer",
       expires_at := 10, scopes := ScopesField.ok [],
       created_at := 0, updated_at := 0 }
     (by decide) (by decide) (by decide) rfl⟩

/-- C6: `_refresh_token` on success overwrites the record's
access-token ciphertext, sets `expires_at` to `now + 3600` seconds and
`updated_at` to `now` (all other fields unchanged) and returns `true`;
on a decryption error, or a provider error during the refresh call, it
returns `false` with the table unchanged — the embedding is total, so
no error is propagated, mirroring the catch-all `except`. -/
theorem C6_refresh_token_op (cfg : Config) (now : Int)
    (rp : Str → Except Unit Str) (tok : OAuthToken) (db : Db) (t0 : OAuthToken)
    (hfind : db.find? (fun u => u.id == tok.id) = some t0) :
    (∀ rt l new_token,
        decryptPy cfg.key tok.refresh_token = .ok rt →
        tok.scopes.loads = some l →
        rp rt = .ok new_token →
        (refreshTokenOp cfg now rp tok db).1 = true ∧
        ((refreshTokenOp cfg now rp tok db).2.find? (fun u => u.id == tok.id)) =
          some { t0 with access_token := encrypt cfg.key new_token,
                         expires_at := now + 3600,
                         updated_at := now }) ∧
    (∀ e, decryptPy cfg.key tok.refresh_token = .error e →
        refreshTokenOp cfg now rp tok db = (false, db)) ∧
    (∀ rt l e, decryptPy cfg.key tok.refresh_token = .ok rt →
        tok.scopes.loads = some l → rp rt = .error e →
        refreshTokenOp cfg now rp tok db = (false, db)) := by
  refine ⟨?_, ?_, ?_⟩
  · intro rt l new_token hdec hload hrp
    have hres : refreshTokenOp cfg now rp tok db =
        (true, db.updateById tok.id fun t =>
          { t with access_token := encrypt cfg.key new_token,
                   expires_at := now + 3600, updated_at := now }) := by
      simp [refreshTokenOp, hdec, hload, hrp]
    rw [hres]
    exact ⟨rfl, find?_updateById_self
      (fun t => { t with access_token := encrypt cfg.key new_token,
                         expires_at := now + 3600, updated_at := now })
      (fun u => rfl) hfind⟩
  · intro e hdec
    simp [refreshTokenOp, hdec]
  · intro rt l e hdec hload hrp
    simp [refreshTokenOp, hdec, hload, hrp]

/-- C6 witness: a record whose refresh-token ciphertext is a raw
(non-Fernet) string makes decryption fail, and the operation reports
`false` with the table unchanged. -/
theorem C6_refresh_token_op_witness :
    refreshTokenOp ⟨"cid", "sec", "uri", 7⟩ 0 (fun _ => .error ())
        { id := "u1_drive", user_id := "u1", service := "drive",
          access_token := Str.cipher 7 (Str.raw "T1"),
          refresh_token := some (Str.raw "junk"), token_type := "Bearer",
          expires_at := 10, scopes := ScopesField.ok [],
          created_at := 0, updated_at := 0 }
        [{ id := "u1_drive", user_id := "u1", service := "drive",
           access_token := Str.cipher 7 (Str.raw "T1"),
           refresh_token := some (Str.raw "junk"), token_type := "Bearer",
           expires_at := 10, scopes := ScopesField.ok [],
           created_at := 0, updated_at := 0 }] =
      (false,
       [{ id := "u1_drive", user_id := "u1", service := "drive",
          access_token := Str.cipher 7 (Str.raw "T1"),
          refresh_token := some (Str.raw "junk"), token_type := "Bearer",
          expires_at := 10, scopes := ScopesField.ok [],
          created_at := 0, updated_at := 0 }]) :=
  (C6_refresh_token_op ⟨"cid", "sec", "uri", 7⟩ 0 (fun _ => .error ())
    { id := "u1_drive", user_id := "u1", service := "drive",
      access_token := Str.cipher 7 (Str.raw "T1"),
      refresh_token := some (Str.raw "junk"), token_type := "Bearer",
      expires_at := 10, scopes := ScopesField.ok [],
      created_at := 0, updated_at := 0 }
    [{ id := "u1_drive", user_id := "u1", service := "drive",
       access_token := Str.cipher 7 (Str.raw "T1"),
       refresh_token := some (Str.raw "junk"), token_type := "Bearer",
       expires_at := 10, scopes := ScopesField.ok [],
       created_at := 0, updated_at := 0 }]
    { id := "u1_drive", user_id := "u1", service := "drive",
      access_token := Str.cipher 7 (Str.raw "T1"),
      refresh_token := some (Str.raw "junk"), token_type := "Bearer",
      expires_at := 10, scopes := ScopesField.ok [],
      created_at := 0, updated_at := 0 }
    (by decide)).2.1 () rfl

/-- C4: `get_valid_token` never propagates a refresh or decryption
error to its caller: under the primary-key invariant its result is
never a raised exception, and both a failed refresh attempt on an
expired record and a decryption failure on the stored access-token
ciphertext yield `None` (not-found). -/
theorem C4_not_found_on_failure (cfg : Config) (now : Int)
    (rp : Str → Except Unit Str) (user_id service : String) (db : Db)
    (hu : UniqueIds db) :
    ((get_valid_token cfg now rp user_id service db).1 ≠ .error ()) ∧
    (∀ tok, db.find? (fun u => u.id == user_id ++ "_" ++ service) = some tok →
      now ≥ tok.expires_at →
      refreshColFalsy tok.refresh_token = false →
      (refreshTokenOp cfg now rp tok db).1 = false →
      get_valid_token cfg now rp user_id service db = (.ok none, db)) ∧
    (∀ tok, db.find? (fun u => u.id == user_id ++ "_" ++ service) = some tok →
      ¬ now ≥ tok.expires_at →
      decrypt cfg.key tok.access_token = .error () →
      get_valid_token cfg now rp user_id service db = (.ok none, db)) := by
  refine ⟨?_, ?_, ?_⟩
  · cases hfind : db.find? (fun u => u.id == user_id ++ "_" ++ service) with
    | none =>
        rw [get_valid_token_eq_of_none cfg now rp user_id service db hu hfind]
        simp
    | some tok =>
        rw [get_valid_token_eq_of_some cfg now rp user_id service db tok hu hfind]
        by_cases hexp : now ≥ tok.expires_at
        · by_cases hnorf : refreshColFalsy tok.refresh_token = true
          · simp [hexp, hnorf]
          · cases hr : refreshTokenOp cfg now rp tok db with
            | mk b db2 =>
                cases b with
                | false => simp [hexp, hnorf, hr]
                | true =>
                    cases hfind2 : db2.find? (fun t => t.id == tok.id) with
                    | none => simp [hexp, hnorf, hr, hfind2]
                    | some reloaded =>
                        have hnf : refreshColFalsy tok.refresh_token = false := by
                          cases h : refreshColFalsy tok.refresh_token
                          · rfl
                          · exact absurd h hnorf
                        simp only [if_pos hexp, hnf, Bool.false_eq_true,
                          if_false, hr, hfind2]
                        exact decryptAndReturn_fst_ok cfg reloaded db2
        · rw [if_neg hexp]
          exact decryptAndReturn_fst_ok cfg tok db
  · intro tok hfind hexp hnorf hfail
    rw [get_valid_token_eq_of_some cfg now rp user_id service db tok hu hfind]
    rw [refreshTokenOp_false cfg now rp tok db hfail]
    simp [hexp, hnorf]
  · intro tok hfind hexp hdec
    rw [get_valid_token_eq_of_some cfg now rp user_id service db tok hu hfind]
    rw [if_neg hexp]
    exact decryptAndReturn_of_error cfg tok db hdec

/-- C4 witness: an expired record whose refresh token was encrypted
under a different key (9, while the service key is 7): the refresh
fails to decrypt it and the caller sees `None`, with the table
unchanged. -/
theorem C4_not_found_on_failure_witness :
    UniqueIds [{ id := "u1_drive", user_id := "u1", service := "drive",
                 access_token := Str.cipher 7 (Str.raw "T1"),
                 refresh_token := some (Str.cipher 9 (Str.raw "R1")),
                 token_type := "Bearer", expires_at := 10,
                 scopes := ScopesField.ok [], created_at := 0, updated_at := 0 }] ∧
    get_valid_token ⟨"cid", "sec", "uri", 7⟩ 20 (fun _ => .error ()) "u1" "drive"
        [{ id := "u1_drive", user_id := "u1", service := "drive",
           access_token := Str.cipher 7 (Str.raw "T1"),
           refresh_token := some (Str.cipher 9 (Str.raw "R1")),
           token_type := "Bearer", expires_at := 10,
           scopes := ScopesField.ok [], created_at := 0, updated_at := 0 }] =
      (.ok none,
       [{ id := "u1_drive", user_id := "u1", service := "drive",
          access_token := Str.cipher 7 (Str.raw "T1"),
          refresh_token := some (Str.cipher 9 (Str.raw "R1")),
          token_type := "Bearer", expires_at := 10,
          scopes := ScopesField.ok [], created_at := 0, updated_at := 0 }]) :=
  ⟨by decide,
   (C4_not_found_on_failure ⟨"cid", "sec", "uri", 7⟩ 20 (fun _ => .error ())
      "u1" "drive"
      [{ id := "u1_drive", user_id := "u1", service := "drive",
         access_token := Str.cipher 7 (Str.raw "T1"),
         refresh_token := some (Str.cipher 9 (Str.raw "R1")),
         token_type := "Bearer", expires_at := 10,
         scopes := ScopesField.ok [], created_at := 0, updated_at := 0 }]
      (by decide)).2.1
      { id := "u1_drive", user_id := "u1", service := "drive",
        access_token := Str.cipher 7 (Str.raw "T1"),
        refresh_token := some (Str.cipher 9 (Str.raw "R1")),
        token_type := "Bearer", expires_at := 10,
        scopes := ScopesField.ok [], created_at := 0, updated_at := 0 }
      (by decide) (by decide) rfl rfl⟩

/-- C10: when the exchange hits the upsert's overwrite branch, the
existing record's `id`, `user_id`, `service`, `token_type` and
`created_at` are left unchanged (the `{ t with ... }` below takes them
from the pre-existing record `t`), and only `access_token`,
`refresh_token`, `expires_at`, `scopes` and `updated_at` are
overwritten. -/
theorem C10_update_preserves_identity_fields (cfg : Config) (now : Int)
    (provider : String → Except Unit Creds) (code user_id service : String)
    (scopes : List String) (creds : Creds) (db db' : Db) (t : OAuthToken)
    (info : TokenInfo)
    (hsvc : GOOGLE_SCOPES service = some scopes)
    (hp : provider code = .ok creds)
    (hu : UniqueIds db)
    (hsome : db.find? (fun u => u.id == user_id ++ "_" ++ service) = some t)
    (hex : exchange_code_for_token cfg now provider code
        (.valid user_id service) db = (.ok info, db')) :
    db'.find? (fun u => u.id == user_id ++ "_" ++ service) =
      some { t with
             access_token := encrypt cfg.key creds.token
             refresh_token := storedRefresh cfg.key creds
             expires_at := computedExpiry now creds
             scopes := ScopesField.ok scopes
             updated_at := now } := by
  rw [exchange_ok_update cfg now provider code user_id service scopes creds db t
    hsvc hp hu hsome] at hex
  have hdb : db' = db.updateById (user_id ++ "_" ++ service) fun u =>
      { u with
        access_token := encrypt cfg.key creds.token
        refresh_token := storedRefresh cfg.key creds
        expires_at := computedExpiry now creds
        scopes := ScopesField.ok scopes
        updated_at := now } :=
    (congrArg Prod.snd hex).symm
  rw [hdb]
  exact find?_updateById_self
    (fun u =>
      { u with
        access_token := encrypt cfg.key creds.token
        refresh_token := storedRefresh cfg.key creds
        expires_at := computedExpiry now creds
        scopes := ScopesField.ok scopes
        updated_at := now })
    (fun u => rfl) hsome

/-- C10 witness: a re-exchange over an existing record keeps
`id`/`user_id`/`service`/`token_type`/`created_at` and overwrites the
five token fields. -/
theorem C10_update_preserves_identity_fields_witness :
    UniqueIds [{ id := "u1_drive", user_id := "u1", service := "drive",
                 access_token := Str.cipher 7 (Str.raw "OLD"),
                 refresh_token := none, token_type := "Bearer",
                 expires_at := 100, scopes := ScopesField.ok [],
                 created_at := 5, updated_at := 6 }] ∧
    (([{ id := "u1_drive", user_id := "u1", service := "drive",
         access_token := Str.cipher 7 (Str.raw "T2"),
         refresh_token := some (Str.cipher 7 (Str.raw "R2")),
         token_type := "Bearer", expires_at := 5000,
         scopes := ScopesField.ok
           ["https://www.googleapis.com/auth/drive.file",
            "https://www.googleapis.com/auth/drive.readonly"],
         created_at := 5, updated_at := 50 }] : Db).find?
        (fun u => u.id == "u1" ++ "_" ++ "drive")) =
      some { id := "u1_drive", user_id := "u1", service := "drive",
             access_token := Str.cipher 7 (Str.raw "T2"),
             refresh_token := some (Str.cipher 7 (Str.raw "R2")),
             token_type := "Bearer", expires_at := 5000,
             scopes := ScopesField.ok
               ["https://www.googleapis.com/auth/drive.file",
                "https://www.googleapis.com/auth/drive.readonly"],
             created_at := 5, updated_at := 50 } :=
  ⟨by decide,
   C10_update_preserves_identity_fields ⟨"cid", "sec", "uri", 7⟩ 50
     (fun _ => .ok { token := Str.raw "T2", refresh_token := some (Str.raw "R2"),
                     expiry := some 5000, granted_scopes := [] })
     "abc" "u1" "drive"
     ["https://www.googleapis.com/auth/drive.file",
      "https://www.googleapis.com/auth/drive.readonly"]
     { token := Str.raw "T2", refresh_token := some (Str.raw "R2"),
       expiry := some 5000, granted_scopes := [] }
     [{ id := "u1_drive", user_id := "u1", service := "drive",
        access_token := Str.cipher 7 (Str.raw "OLD"),
        refresh_token := none, token_type := "Bearer",
        expires_at := 100, scopes := ScopesField.ok [],
        created_at := 5, updated_at := 6 }]
     [{ id := "u1_drive", user_id := "u1", service := "drive",
        access_token := Str.cipher 7 (Str.raw "T2"),
        refresh_token := some (Str.cipher 7 (Str.raw "R2")),
        token_type := "Bearer", expires_at := 5000,
        scopes := ScopesField.ok
          ["https://www.googleapis.com/auth/drive.file",
           "https://www.googleapis.com/auth/drive.readonly"],
        created_at := 5, updated_at := 50 }]
     { id := "u1_drive", user_id := "u1", service := "drive",
       access_token := Str.cipher 7 (Str.raw "OLD"),
       refresh_token := none, token_type := "Bearer",
       expires_at := 100, scopes := ScopesField.ok [],
       created_at := 5, updated_at := 6 }
     { user_id := "u1", service := "drive",
       scopes := ["https://www.googleapis.com/auth/drive.file",
                  "https://www.googleapis.com/auth/drive.readonly"],
       expires_at := 5000, has_refresh_token := true }
     rfl rfl (by decide) (by decide) rfl⟩

/-- C1: a successful code exchange followed immediately (before expiry)
by `get_valid_token` for the same `(user_id, service)` returns exactly
the plaintext access token the provider issued: the
encrypt-store-fetch-decrypt pipeline is the identity on the access
token. -/
theorem C1_exchange_then_get_roundtrip (cfg : Config) (now1 now2 : Int)
    (provider : String → Except Unit Creds) (rp : Str → Except Unit Str)
    (code user_id service : String) (scopes : List String) (creds : Creds)
    (db db' : Db) (info : TokenInfo)
    (hsvc : GOOGLE_SCOPES service = some scopes)
    (hp : provider code = .ok creds)
    (hu : UniqueIds db)
    (hex : exchange_code_for_token cfg now1 provider code
        (.valid user_id service) db = (.ok info, db'))
    (hfresh : now2 < computedExpiry now1 creds) :
    get_valid_token cfg now2 rp user_id service db' =
      (.ok (some creds.token), db') := by
  cases hfind : db.find? (fun u => u.id == user_id ++ "_" ++ service) with
  | none =>
      rw [exchange_ok_insert cfg now1 provider code user_id service scopes creds db
        hsvc hp hu hfind] at hex
      have hdb : db' = db ++ [{ id := user_id ++ "_" ++ service
                                user_id := user_id
                                service := service
                                access_token := encrypt cfg.key creds.token
                                refresh_token := storedRefresh cfg.key creds
                                token_type := "Bearer"
                                expires_at := computedExpiry now1 creds
                                scopes := ScopesField.ok scopes
                                created_at := now1
                                updated_at := now1 }] :=
        (congrArg Prod.snd hex).symm
      have hu' : UniqueIds db' := by
        rw [hdb]
        exact uniqueIds_append_new hu hfind
      have hfind' : db'.find? (fun u => u.id == user_id ++ "_" ++ service) =
          some { id := user_id ++ "_" ++ service
                 user_id := user_id
                 service := service
                 access_token := encrypt cfg.key creds.token
                 refresh_token := storedRefresh cfg.key creds
                 token_type := "Bearer"
                 expires_at := computedExpiry now1 creds
                 scopes := ScopesField.ok scopes
                 created_at := now1
                 updated_at := now1 } := by
        rw [hdb]
        exact find?_append_new hfind (by simp)
      rw [get_valid_token_eq_of_some cfg now2 rp user_id service db' _ hu' hfind']
      rw [if_neg (not_le.mpr hfresh)]
      exact decryptAndReturn_of_encrypt cfg _ db' creds.token rfl
  | some t =>
      rw [exchange_ok_update cfg now1 provider code user_id service scopes creds db t
        hsvc hp hu hfind] at hex
      have hdb : db' = db.updateById (user_id ++ "_" ++ service) fun u =>
          { u with
            access_token := encrypt cfg.key creds.token
            refresh_token := storedRefresh cfg.key creds
            expires_at := computedExpiry now1 creds
            scopes := ScopesField.ok scopes
            updated_at := now1 } :=
        (congrArg Prod.snd hex).symm
      have hu' : UniqueIds db' := by
        rw [hdb]
        exact uniqueIds_updateById _ _ (fun u => rfl) hu
      have hfind' : db'.find? (fun u => u.id == user_id ++ "_" ++ service) =
          some { t with
                 access_token := encrypt cfg.key creds.token
                 refresh_token := storedRefresh cfg.key creds
                 expires_at := computedExpiry now1 creds
                 scopes := ScopesField.ok scopes
                 updated_at := now1 } := by
        rw [hdb]
        exact find?_updateById_self
          (fun u =>
            { u with
              access_token := encrypt cfg.key creds.token
              refresh_token := storedRefresh cfg.key creds
              expires_at := computedExpiry now1 creds
              scopes := ScopesField.ok scopes
              updated_at := now1 })
          (fun u => rfl) hfind
      rw [get_valid_token_eq_of_some cfg now2 rp user_id service db' _ hu' hfind']
      rw [if_neg (not_le.mpr hfresh)]
      exact decryptAndReturn_of_encrypt cfg _ db' creds.token rfl

/-- C1 witness: exchange for `("u1", "drive")` on an empty table at
time 0, then read at time 100 (before the 3600 default expiry): the
caller gets back exactly the provider's plaintext token `T1`. -/
theorem C1_exchange_then_get_roundtrip_witness :
    (100 : Int) < computedExpiry 0
      { token := Str.raw "T1", refresh_token := some (Str.raw "R1"),
        expiry := none, granted_scopes := [] } ∧
    get_valid_token ⟨"cid", "sec", "uri", 7⟩ 100 (fun _ => .error ()) "u1" "drive"
        [{ id := "u1_drive", user_id := "u1", service := "drive",
           access_token := Str.cipher 7 (Str.raw "T1"),
           refresh_token := some (Str.cipher 7 (Str.raw "R1")),
           token_type := "Bearer", expires_at := 3600,
           scopes := ScopesField.ok
             ["https://www.googleapis.com/auth/drive.file",
              "https://www.googleapis.com/auth/drive.readonly"],
           created_at := 0, updated_at := 0 }] =
      (.ok (some (Str.raw "T1")),
       [{ id := "u1_drive", user_id := "u1", service := "drive",
          access_token := Str.cipher 7 (Str.raw "T1"),
          refresh_token := some (Str.cipher 7 (Str.raw "R1")),
          token_type := "Bearer", expires_at := 3600,
          scopes := ScopesField.ok
            ["https://www.googleapis.com/auth/drive.file",
             "https://www.googleapis.com/auth/drive.readonly"],
          created_at := 0, updated_at := 0 }]) :=
  ⟨by decide,
   C1_exchange_then_get_roundtrip ⟨"cid", "sec", "uri", 7⟩ 0 100
     (fun _ => .ok { token := Str.raw "T1", refresh_token := some (Str.raw "R1"),
                     expiry := none, granted_scopes := [] })
     (fun _ => .error ()) "abc" "u1" "drive"
     ["https://www.googleapis.com/auth/drive.file",
      "https://www.googleapis.com/auth/drive.readonly"]
     { token := Str.raw "T1", refresh_token := some (Str.raw "R1"),
       expiry := none, granted_scopes := [] }
     []
     [{ id := "u1_drive", user_id := "u1", service := "drive",
        access_token := Str.cipher 7 (Str.raw "T1"),
        refresh_token := some (Str.cipher 7 (Str.raw "R1")),
        token_type := "Bearer", expires_at := 3600,
        scopes := ScopesField.ok
          ["https://www.googleapis.com/auth/drive.file",
           "https://www.googleapis.com/auth/drive.readonly"],
        created_at := 0, updated_at := 0 }]
     { user_id := "u1", service := "drive",
       scopes := ["https://www.googleapis.com/auth/drive.file",
                  "https://www.googleapis.com/auth/drive.readonly"],
       expires_at := 3600, has_refresh_token := true }
     rfl rfl (by decide) rfl (by decide)⟩

/-- C2: the upsert keeps one record per `(user_id, service)`: after two
successful exchanges for the same pair with two distinct valid codes,
starting from any table satisfying the primary-key invariant, the table
still satisfies it, exactly one record carries the composite key, and
its token fields are those of the second exchange. -/
theorem C2_upsert_exactly_one (cfg : Config) (now1 now2 : Int)
    (provider : String → Except Unit Creds)
    (code1 code2 user_id service : String) (scopes : List String)
    (c1 c2 : Creds) (db db1 db2 : Db) (info1 info2 : TokenInfo)
    (hcodes : code1 ≠ code2)
    (hsvc : GOOGLE_SCOPES service = some scopes)
    (hp1 : provider code1 = .ok c1)
    (hp2 : provider code2 = .ok c2)
    (hu : UniqueIds db)
    (h1 : exchange_code_for_token cfg now1 provider code1
        (.valid user_id service) db = (.ok info1, db1))
    (h2 : exchange_code_for_token cfg now2 provider code2
        (.valid user_id service) db1 = (.ok info2, db2)) :
    UniqueIds db2 ∧
    (db2.filter (fun u => u.id == user_id ++ "_" ++ service)).map
        (fun t => (t.access_token, t.refresh_token, t.expires_at,
                   t.scopes, t.updated_at)) =
      [(encrypt cfg.key c2.token, storedRefresh cfg.key c2,
        computedExpiry now2 c2, ScopesField.ok scopes, now2)] := by
  have key : ∃ s1, db1.find? (fun u => u.id == user_id ++ "_" ++ service) = some s1 ∧
      UniqueIds db1 := by
    cases hfind : db.find? (fun u => u.id == user_id ++ "_" ++ service) with
    | none =>
        rw [exchange_ok_insert cfg now1 provider code1 user_id service scopes c1 db
          hsvc hp1 hu hfind] at h1
        have hdb1 : db1 = db ++ [{ id := user_id ++ "_" ++ service
                                   user_id := user_id
                                   service := service
                                   access_token := encrypt cfg.key c1.token
                                   refresh_token := storedRefresh cfg.key c1
                                   token_type := "Bearer"
                                   expires_at := computedExpiry now1 c1
                                   scopes := ScopesField.ok scopes
                                   created_at := now1
                                   updated_at := now1 }] :=
          (congrArg Prod.snd h1).symm
        refine ⟨{ id := user_id ++ "_" ++ service
                  user_id := user_id
                  service := service
                  access_token := encrypt cfg.key c1.token
                  refresh_token := storedRefresh cfg.key c1
                  token_type := "Bearer"
                  expires_at := computedExpiry now1 c1
                  scopes := ScopesField.ok scopes
                  created_at := now1
                  updated_at := now1 }, ?_, ?_⟩
        · rw [hdb1]
          exact find?_append_new hfind (by simp)
        · rw [hdb1]
          exact uniqueIds_append_new hu hfind
    | some t =>
        rw [exchange_ok_update cfg now1 provider code1 user_id service scopes c1 db t
          hsvc hp1 hu hfind] at h1
        have hdb1 : db1 = db.updateById (user_id ++ "_" ++ service) fun u =>
            { u with
              access_token := encrypt cfg.key c1.token
              refresh_token := storedRefresh cfg.key c1
              expires_at := computedExpiry now1 c1
              scopes := ScopesField.ok scopes
              updated_at := now1 } :=
          (congrArg Prod.snd h1).symm
        refine ⟨{ t with
                  access_token := encrypt cfg.key c1.token
                  refresh_token := storedRefresh cfg.key c1
                  expires_at := computedExpiry now1 c1
                  scopes := ScopesField.ok scopes
                  updated_at := now1 }, ?_, ?_⟩
        · rw [hdb1]
          exact find?_updateById_self
            (fun u =>
              { u with
                access_token := encrypt cfg.key c1.token
                refresh_token := storedRefresh cfg.key c1
                expires_at := computedExpiry now1 c1
                scopes := ScopesField.ok scopes
                updated_at := now1 })
            (fun u => rfl) hfind
        · rw [hdb1]
          exact uniqueIds_updateById _ _ (fun u => rfl) hu
  obtain ⟨s1, hfind1, hu1⟩ := key
  rw [exchange_ok_update cfg now2 provider code2 user_id service scopes c2 db1 s1
    hsvc hp2 hu1 hfind1] at h2
  have hdb2 : db2 = db1.updateById (user_id ++ "_" ++ service) fun u =>
      { u with
        access_token := encrypt cfg.key c2.token
        refresh_token := storedRefresh cfg.key c2
        expires_at := computedExpiry now2 c2
        scopes := ScopesField.ok scopes
        updated_at := now2 } :=
    (congrArg Prod.snd h2).symm
  constructor
  · rw [hdb2]
    exact uniqueIds_updateById _ _ (fun u => rfl) hu1
  · rw [hdb2, filter_updateById_self db1 (user_id ++ "_" ++ service)
      (fun u =>
        { u with
          access_token := encrypt cfg.key c2.token
          refresh_token := storedRefresh cfg.key c2
          expires_at := computedExpiry now2 c2
          scopes := ScopesField.ok scopes
          updated_at := now2 })
      (fun u => rfl),
      filter_eq_of_find?_some hu1 hfind1]
    rfl

/-- C2 witness: two concrete exchanges with distinct codes for
`("u1", "drive")` starting from the empty table leave exactly one
record, carrying the second exchange's tokens. -/
theorem C2_upsert_exactly_one_witness :
    "abc" ≠ "def" ∧ UniqueIds ([] : Db) ∧
    UniqueIds [{ id := "u1_drive", user_id := "u1", service := "drive",
                 access_token := Str.cipher 7 (Str.raw "T2"),
                 refresh_token := some (Str.cipher 7 (Str.raw "R2")),
                 token_type := "Bearer", expires_at := 3700,
                 scopes := ScopesField.ok
                   ["https://www.googleapis.com/auth/drive.file",
                    "https://www.googleapis.com/auth/drive.readonly"],
                 created_at := 0, updated_at := 100 }] ∧
    (([{ id := "u1_drive", user_id := "u1", service := "drive",
         access_token := Str.cipher 7 (Str.raw "T2"),
         refresh_token := some (Str.cipher 7 (Str.raw "R2")),
         token_type := "Bearer", expires_at := 3700,
         scopes := ScopesField.ok
           ["https://www.googleapis.com/auth/drive.file",
            "https://www.googleapis.com/auth/drive.readonly"],
         created_at := 0, updated_at := 100 }] : Db).filter
        (fun u => u.id == "u1" ++ "_" ++ "drive")).map
        (fun t => (t.access_token, t.refresh_token, t.expires_at,
                   t.scopes, t.updated_at)) =
      [(Str.cipher 7 (Str.raw "T2"), some (Str.cipher 7 (Str.raw "R2")),
        3700, ScopesField.ok
          ["https://www.googleapis.com/auth/drive.file",
           "https://www.googleapis.com/auth/drive.readonly"], 100)] := by
  refine ⟨by decide, by decide, ?_, ?_⟩
  · exact (C2_upsert_exactly_one ⟨"cid", "sec", "uri", 7⟩ 0 100
      (fun code => if code == "abc"
        then .ok { token := Str.raw "T1", refresh_token := some (Str.raw "R1"),
                   expiry := none, granted_scopes := [] }
        else .ok { token := Str.raw "T2", refresh_token := some (Str.raw "R2"),
                   expiry := none, granted_scopes := [] })
      "abc" "def" "u1" "drive"
      ["https://www.googleapis.com/auth/drive.file",
       "https://www.googleapis.com/auth/drive.readonly"]
      { token := Str.raw "T1", refresh_token := some (Str.raw "R1"),
        expiry := none, granted_scopes := [] }
      { token := Str.raw "T2", refresh_token := some (Str.raw "R2"),
        expiry := none, granted_scopes := [] }
      []
      [{ id := "u1_drive", user_id := "u1", service := "drive",
         access_token := Str.cipher 7 (Str.raw "T1"),
         refresh_token := some (Str.cipher 7 (Str.raw "R1")),
         token_type := "Bearer", expires_at := 3600,
         scopes := ScopesField.ok
           ["https://www.googleapis.com/auth/drive.file",
            "https://www.googleapis.com/auth/drive.readonly"],
         created_at := 0, updated_at := 0 }]
      [{ id := "u1_drive", user_id := "u1", service := "drive",
         access_token := Str.cipher 7 (Str.raw "T2"),
         refresh_token := some (Str.cipher 7 (Str.raw "R2")),
         token_type := "Bearer", expires_at := 3700,
         scopes := ScopesField.ok
           ["https://www.googleapis.com/auth/drive.file",
            "https://www.googleapis.com/auth/drive.readonly"],
         created_at := 0, updated_at := 100 }]
      { user_id := "u1", service := "drive",
        scopes := ["https://www.googleapis.com/auth/drive.file",
                   "https://www.googleapis.com/auth/drive.readonly"],
        expires_at := 3600, has_refresh_token := true }
      { user_id := "u1", service := "drive",
        scopes := ["https://www.googleapis.com/auth/drive.file",
                   "https://www.googleapis.com/auth/drive.readonly"],
        expires_at := 3700, has_refresh_token := true }
      (by decide) rfl rfl rfl (by decide) rfl rfl).1
  · exact (C2_upsert_exactly_one ⟨"cid", "sec", "uri", 7⟩ 0 100
      (fun code => if code == "abc"
        then .ok { token := Str.raw "T1", refresh_token := some (Str.raw "R1"),
                   expiry := none, granted_scopes := [] }
        else .ok { token := Str.raw "T2", refresh_token := some (Str.raw "R2"),
                   expiry := none, granted_scopes := [] })
      "abc" "def" "u1" "drive"
      ["https://www.googleapis.com/auth/drive.file",
       "https://www.googleapis.com/auth/drive.readonly"]
      { token := Str.raw "T1", refresh_token := some (Str.raw "R1"),
        expiry := none, granted_scopes := [] }
      { token := Str.raw "T2", refresh_token := some (Str.raw "R2"),
        expiry := none, granted_scopes := [] }
      []
      [{ id := "u1_drive", user_id := "u1", service := "drive",
         access_token := Str.cipher 7 (Str.raw "T1"),
         refresh_token := some (Str.cipher 7 (Str.raw "R1")),
         token_type := "Bearer", expires_at := 3600,
         scopes := ScopesField.ok
           ["https://www.googleapis.com/auth/drive.file",
            "https://www.googleapis.com/auth/drive.readonly"],
         created_at := 0, updated_at := 0 }]
      [{ id := "u1_drive", user_id := "u1", service := "drive",
         access_token := Str.cipher 7 (Str.raw "T2"),
         refresh_token := some (Str.cipher 7 (Str.raw "R2")),
         token_type := "Bearer", expires_at := 3700,
         scopes := ScopesField.ok
           ["https://www.googleapis.com/auth/drive.file",
            "https://www.googleapis.com/auth/drive.readonly"],
         created_at := 0, updated_at := 100 }]
      { user_id := "u1", service := "drive",
        scopes := ["https://www.googleapis.com/auth/drive.file",
                   "https://www.googleapis.com/auth/drive.readonly"],
        expires_at := 3600, has_refresh_token := true }
      { user_id := "u1", service := "drive",
        scopes := ["https://www.googleapis.com/auth/drive.file",
                   "https://www.googleapis.com/auth/drive.readonly"],
        expires_at := 3700, has_refresh_token := true }
      (by decide) rfl rfl rfl (by decide) rfl rfl).2

end GoogleOAuth
